import Mathlib

/-!
Shallow embedding of `src/MLTrader/prepare_dataset/prepare.py`: the sliding
window sampler (`sliding_window_sample_datapoints`), the `Dataset` dataclass
with its `__add__`, and the time-block train/validation walk
(`split_train_validation`), together with theorems about them.

Timestamps are modelled as integer milliseconds since the epoch: pandas
datetime comparison and `pd.Timedelta(days=...)` arithmetic coincide with
integer comparison and millisecond arithmetic. Prices are modelled as
rationals; nothing here computes with them, they are only moved around.
NumPy arrays are modelled as nested lists, the outermost axis first.
-/

set_option maxRecDepth 8192

/-- Constant `SPLIT_PER_DAY` of `prepare.py`: length of one walk block in days. -/
def SPLIT_PER_DAY : Nat := 23

/-- Constant `TRAINING_DAY`: leading days of each block routed to training. -/
def TRAINING_DAY : Nat := 20

/-- Constant `VALIDATION_DAY = SPLIT_PER_DAY - TRAINING_DAY`. -/
def VALIDATION_DAY : Nat := SPLIT_PER_DAY - TRAINING_DAY

/-- Constant `BAR_PER_DATAPOINT = 2 * 24 * (60 // 15)`: bars per window. -/
def BAR_PER_DATAPOINT : Nat := 2 * 24 * (60 / 15)

/-- Constant `OUTPUT_BAR_PER_DATAPOINT = 4 * (60 // 15)`: bars of the output
sub-window. -/
def OUTPUT_BAR_PER_DATAPOINT : Nat := 4 * (60 / 15)

/-- Constant `INPUT_BAR_PER_DATAPOINT = BAR_PER_DATAPOINT - OUTPUT_BAR_PER_DATAPOINT`. -/
def INPUT_BAR_PER_DATAPOINT : Nat := BAR_PER_DATAPOINT - OUTPUT_BAR_PER_DATAPOINT

/-- Constant `DIMENSION_PER_BAR = 4`: price fields per bar (open, close, high, low). -/
def DIMENSION_PER_BAR : Nat := 4

/-- One row of the price DataFrame: the two timestamp columns `OpenTime` and
`CloseTime` (integer milliseconds), followed by the four price columns
`df.values[:, 2:6]` that `extract_open_close_high_low` reads. -/
structure Bar where
  OpenTime : Int
  CloseTime : Int
  Open : ℚ
  Close : ℚ
  High : ℚ
  Low : ℚ
deriving DecidableEq

/-- The `Dataset` dataclass: `X` is the input array of shape
`[N x INPUT_BAR_PER_DATAPOINT x DIMENSION_PER_BAR]` and `Y` the output array of
shape `[N x OUTPUT_BAR_PER_DATAPOINT x DIMENSION_PER_BAR]`, as nested lists
with the sample axis outermost. -/
structure Dataset where
  X : List (List (List ℚ))
  Y : List (List (List ℚ))
deriving DecidableEq

/-- Body of `Dataset.__add__` applied to a `Dataset` right operand:
`np.concatenate` along axis 0 on `X` and on `Y`. -/
def Dataset.add (a b : Dataset) : Dataset :=
  ⟨a.X ++ b.X, a.Y ++ b.Y⟩

instance : Add Dataset := ⟨Dataset.add⟩

/-- The function `empty_dataset`: zero samples in either array (every sample of
an empty array vacuously has the declared shape). -/
def empty_dataset : Dataset := ⟨[], []⟩

/-- The function `extract_open_close_high_low`: read `df.values[:, 2:6]` of a
slice and shape it as one sample of `[len x DIMENSION_PER_BAR]`; the leading
singleton axis of the `reshape((1, -1, 4))` is rendered by the caller wrapping
this sample in a one-element list. -/
def extract_open_close_high_low (df : List Bar) : List (List ℚ) :=
  df.map fun b => [b.Open, b.Close, b.High, b.Low]

/-- Python `range(start, stop, step)` for a non-negative `step` (the sampler
uses `range(0, len(df) - BAR_PER_DATAPOINT + 1, 3)`); `step = 0` is mapped to
the empty range. -/
def pyRange (start stop step : Nat) : List Nat :=
  if _h : step = 0 ∨ stop ≤ start then []
  else start :: pyRange (start + step) stop step
termination_by stop - start
decreasing_by omega

/-- Return value of `sliding_window_sample_datapoints`: the guard path
`if len(df) < BAR_PER_DATAPOINT` returns the Python literal `[]` — a plain
list, not a `Dataset` — while every other path returns a `Dataset`. -/
inductive SampleResult where
  | toDataset (d : Dataset)
  | emptyList
deriving DecidableEq

/-- Body of one iteration of the sampler's `for` loop: the window
`data_point = df.iloc[start_idx : start_idx + BAR_PER_DATAPOINT]` split at
`INPUT_BAR_PER_DATAPOINT` into the one-sample `Dataset(X=input_data, Y=output_data)`
that the iteration adds to the accumulator. -/
def sample_at (df : List Bar) (start_idx : Nat) : Dataset :=
  let data_point := (df.drop start_idx).take BAR_PER_DATAPOINT
  let input_data := extract_open_close_high_low (data_point.take INPUT_BAR_PER_DATAPOINT)
  let output_data := extract_open_close_high_low (data_point.drop INPUT_BAR_PER_DATAPOINT)
  Dataset.mk [input_data] [output_data]

/-- Accumulation loop of `sliding_window_sample_datapoints`: for each
`start_idx` in `range(0, len(df) - BAR_PER_DATAPOINT + 1, 3)`, add the
one-sample `Dataset` of that window to the accumulator. -/
def sliding_loop (df : List Bar) : Dataset :=
  (pyRange 0 (df.length - BAR_PER_DATAPOINT + 1) 3).foldl
    (fun dataset start_idx => dataset + sample_at df start_idx)
    empty_dataset

/-- The function `sliding_window_sample_datapoints`. -/
def sliding_window_sample_datapoints (df : List Bar) : SampleResult :=
  if df.length < BAR_PER_DATAPOINT then SampleResult.emptyList
  else SampleResult.toDataset (sliding_loop df)

/-- `pd.Timedelta(days = d)` in milliseconds. -/
def timedelta_days (d : Nat) : Int := (d : Int) * 86400000

/-- The boolean mask `(df["OpenTime"] >= training_start) & (df["CloseTime"] < training_end)`
of the block starting at `current_date`, evaluated at one row. -/
def in_training_block (current_date : Int) (b : Bar) : Bool :=
  decide (current_date ≤ b.OpenTime) &&
  decide (b.CloseTime < current_date + timedelta_days TRAINING_DAY)

/-- The boolean mask `(df["OpenTime"] >= validation_start) & (df["CloseTime"] < validation_end)`
of the block starting at `current_date`, evaluated at one row. -/
def in_validation_block (current_date : Int) (b : Bar) : Bool :=
  decide (current_date + timedelta_days TRAINING_DAY ≤ b.OpenTime) &&
  decide (b.CloseTime < current_date + timedelta_days SPLIT_PER_DAY)

/-- The slice `df[(df["OpenTime"] >= training_start) & (df["CloseTime"] < training_end)]`
of the block starting at `current_date`, in frame order. -/
def training_df (df : List Bar) (current_date : Int) : List Bar :=
  df.filter (in_training_block current_date)

/-- The slice `df[(df["OpenTime"] >= validation_start) & (df["CloseTime"] < validation_end)]`
of the block starting at `current_date`, in frame order. -/
def validation_df (df : List Bar) (current_date : Int) : List Bar :=
  df.filter (in_validation_block current_date)

/-- Python evaluation of `dataset + r` where `dataset : Dataset` and `r` came
from `sliding_window_sample_datapoints`: `Dataset.__add__` returns
`NotImplemented` when `r` is the plain list `[]`, and since `list` has no
`__radd__` the interpreter raises `TypeError`. -/
def add_sample_result (dataset : Dataset) (r : SampleResult) : Except String Dataset :=
  match r with
  | .toDataset d => .ok (dataset + d)
  | .emptyList => .error "TypeError"

/-- One iteration of the `while` loop of `split_train_validation`: slice the
block starting at `current_date` and add both sampled slices to the running
accumulators (training first; if it raises, validation is never reached). -/
def block_step (df : List Bar) (acc : Dataset × Dataset) (current_date : Int) :
    Except String (Dataset × Dataset) := do
  let t ← add_sample_result acc.1 (sliding_window_sample_datapoints (training_df df current_date))
  let v ← add_sample_result acc.2 (sliding_window_sample_datapoints (validation_df df current_date))
  return (t, v)

/-- The `while current_date + pd.Timedelta(days=SPLIT_PER_DAY) <= end_date`
loop of `split_train_validation`, advancing `current_date` by `SPLIT_PER_DAY`
days each iteration. -/
def split_loop (df : List Bar) (end_date : Int) (acc : Dataset × Dataset)
    (current_date : Int) : Except String (Dataset × Dataset) :=
  if current_date + timedelta_days SPLIT_PER_DAY ≤ end_date then
    match block_step df acc current_date with
    | .error e => .error e
    | .ok acc2 => split_loop df end_date acc2 (current_date + timedelta_days SPLIT_PER_DAY)
  else .ok acc
termination_by (end_date - current_date).toNat
decreasing_by
  simp only [timedelta_days, SPLIT_PER_DAY] at *
  omega

/-- `df["OpenTime"].min()` of a nonempty frame; the value at the empty frame is
arbitrary (`0`) and never consulted by `split_train_validation`. -/
def min_open_time (df : List Bar) : Int :=
  match df with
  | [] => 0
  | b :: rest => rest.foldl (fun m x => min m x.OpenTime) b.OpenTime

/-- `df["CloseTime"].max()` of a nonempty frame; the value at the empty frame
is arbitrary (`0`) and never consulted by `split_train_validation`. -/
def max_close_time (df : List Bar) : Int :=
  match df with
  | [] => 0
  | b :: rest => rest.foldl (fun m x => max m x.CloseTime) b.CloseTime

/-- The function `split_train_validation` on the decoded bar rows of its CSV
file. On an empty frame the `while` condition is immediately false (`NaT`
comparisons are false in pandas), so both accumulators come back empty. -/
def split_train_validation (df : List Bar) : Except String (Dataset × Dataset) :=
  match df with
  | [] => .ok (empty_dataset, empty_dataset)
  | _ :: _ =>
    split_loop df (max_close_time df) (empty_dataset, empty_dataset) (min_open_time df)

/-- Sample count of a sampler result: the number of `X` samples of a `Dataset`,
and `0` for the plain empty list of the guard path. -/
def sampleCount : SampleResult → Nat
  | .toDataset d => d.X.length
  | .emptyList => 0

/-- Observable outcome of `split_train_validation`: `none` when it raises,
otherwise the two sample counts. -/
def splitCounts (df : List Bar) : Option (Nat × Nat) :=
  match split_train_validation df with
  | .ok (t, v) => some (t.X.length, v.X.length)
  | .error _ => none

/-! ### Basic facts about `Dataset` and the sampler loop -/

theorem Dataset.add_X (a b : Dataset) : (a + b).X = a.X ++ b.X := rfl

theorem Dataset.add_Y (a b : Dataset) : (a + b).Y = a.Y ++ b.Y := rfl

theorem empty_dataset_X : empty_dataset.X = [] := rfl

theorem empty_dataset_Y : empty_dataset.Y = [] := rfl

/-- The window start indices `range(0, n, 3)` form the arithmetic progression
`0, 3, …` of length `⌈n / 3⌉`. -/
theorem pyRange_three_eq (s stop : Nat) :
    pyRange s stop 3 = (List.range ((stop - s + 2) / 3)).map (fun i => s + 3 * i) := by
  rw [pyRange]
  split
  · rename_i h
    have h0 : (stop - s + 2) / 3 = 0 := by omega
    simp [h0]
  · rename_i h
    rw [pyRange_three_eq (s + 3) stop]
    have hk : (stop - s + 2) / 3 = (stop - (s + 3) + 2) / 3 + 1 := by omega
    rw [hk, List.range_succ_eq_map, List.map_cons, List.map_map]
    refine congrArg₂ _ (by omega) (List.map_congr_left ?_)
    intro i _
    simp [Function.comp]
    omega
termination_by stop - s
decreasing_by omega

theorem pyRange_three_length (s stop : Nat) :
    (pyRange s stop 3).length = (stop - s + 2) / 3 := by
  rw [pyRange_three_eq]; simp

/-- Folding the sampler's loop body over any index list appends, in order, one
input sample and one output sample per index. -/
theorem foldl_sample (df : List Bar) (l : List Nat) (d : Dataset) :
    l.foldl (fun dataset start_idx => dataset + sample_at df start_idx) d
      = ⟨d.X ++ l.map (fun s => (sample_at df s).X.headI),
         d.Y ++ l.map (fun s => (sample_at df s).Y.headI)⟩ := by
  induction l generalizing d with
  | nil => simp
  | cons s t ih =>
    rw [List.foldl_cons, ih]
    simp only [Dataset.add_X, Dataset.add_Y, List.map_cons, sample_at]
    simp [List.append_assoc]

theorem sliding_loop_X (df : List Bar) :
    (sliding_loop df).X
      = (pyRange 0 (df.length - BAR_PER_DATAPOINT + 1) 3).map
          (fun s => extract_open_close_high_low
            (((df.drop s).take BAR_PER_DATAPOINT).take INPUT_BAR_PER_DATAPOINT)) := by
  rw [sliding_loop, foldl_sample]
  simp [sample_at, empty_dataset]

theorem sliding_loop_Y (df : List Bar) :
    (sliding_loop df).Y
      = (pyRange 0 (df.length - BAR_PER_DATAPOINT + 1) 3).map
          (fun s => extract_open_close_high_low
            (((df.drop s).take BAR_PER_DATAPOINT).drop INPUT_BAR_PER_DATAPOINT)) := by
  rw [sliding_loop, foldl_sample]
  simp [sample_at, empty_dataset]

theorem sliding_loop_length_X (df : List Bar) :
    (sliding_loop df).X.length = (df.length - BAR_PER_DATAPOINT + 1 + 2) / 3 := by
  rw [sliding_loop_X, List.length_map, pyRange_three_length]
  omega

theorem sliding_loop_length_Y (df : List Bar) :
    (sliding_loop df).Y.length = (df.length - BAR_PER_DATAPOINT + 1 + 2) / 3 := by
  rw [sliding_loop_Y, List.length_map, pyRange_three_length]
  omega

/-- C1: for a bar sub-sequence of length `L ≥ 192 = BAR_PER_DATAPOINT` the
sampler produces exactly `(L - 192) / 3 + 1` samples (start indices
`0, 3, 6, …` while `s + 192 ≤ L`), and for `L < 192` it produces `0` samples;
in particular `L = 192` yields `1` sample and `L = 191` yields `0`. -/
theorem sampler_count (df : List Bar) :
    (BAR_PER_DATAPOINT ≤ df.length →
      sampleCount (sliding_window_sample_datapoints df)
        = (df.length - BAR_PER_DATAPOINT) / 3 + 1) ∧
    (df.length < BAR_PER_DATAPOINT →
      sampleCount (sliding_window_sample_datapoints df) = 0) := by
  constructor
  · intro h
    rw [sliding_window_sample_datapoints, if_neg (by omega)]
    show (sliding_loop df).X.length = _
    rw [sliding_loop_length_X]
    have : BAR_PER_DATAPOINT = 192 := rfl
    omega
  · intro h
    rw [sliding_window_sample_datapoints, if_pos h]
    rfl

/-! ### C7: `Dataset` concatenation is a monoid -/

theorem Dataset.add_def (a b : Dataset) : a + b = ⟨a.X ++ b.X, a.Y ++ b.Y⟩ := rfl

/-- C7: `Dataset` concatenation is associative, `empty_dataset` is a two-sided
identity, and `A + B` has `Na + Nb` samples with `A`'s samples preceding `B`'s
in both `X` and `Y`. -/
theorem dataset_concat_monoid (A B C : Dataset) :
    (A + B + C = A + (B + C)) ∧
    (empty_dataset + A = A) ∧ (A + empty_dataset = A) ∧
    ((A + B).X.length = A.X.length + B.X.length) ∧
    ((A + B).Y.length = A.Y.length + B.Y.length) ∧
    ((A + B).X.take A.X.length = A.X) ∧ ((A + B).X.drop A.X.length = B.X) ∧
    ((A + B).Y.take A.Y.length = A.Y) ∧ ((A + B).Y.drop A.Y.length = B.Y) := by
  obtain ⟨ax, ay⟩ := A
  obtain ⟨bx, byy⟩ := B
  obtain ⟨cx, cy⟩ := C
  simp [Dataset.add_def, empty_dataset, List.append_assoc,
    List.take_left, List.drop_left]

/-! ### C9: every produced `Dataset` pairs `X` with `Y` -/

theorem sliding_loop_balanced (df : List Bar) :
    (sliding_loop df).X.length = (sliding_loop df).Y.length := by
  rw [sliding_loop_length_X, sliding_loop_length_Y]

theorem sampler_toDataset_inv (df : List Bar) (d : Dataset)
    (h : sliding_window_sample_datapoints df = SampleResult.toDataset d) :
    d = sliding_loop df := by
  unfold sliding_window_sample_datapoints at h
  split at h
  · exact absurd h (by simp)
  · injection h with h
    exact h.symm

/-- The loop body in closed form: `TypeError` as soon as either sampled slice
came back as the plain list `[]`, otherwise both one-block Datasets are added
to the accumulators. -/
theorem block_step_eq (df : List Bar) (acc : Dataset × Dataset) (cur : Int) :
    block_step df acc cur =
      match sliding_window_sample_datapoints (training_df df cur),
            sliding_window_sample_datapoints (validation_df df cur) with
      | SampleResult.toDataset dT, SampleResult.toDataset dV =>
          Except.ok (acc.1 + dT, acc.2 + dV)
      | SampleResult.emptyList, _ => Except.error "TypeError"
      | _, SampleResult.emptyList => Except.error "TypeError" := by
  unfold block_step add_sample_result
  cases sliding_window_sample_datapoints (training_df df cur) <;>
    cases sliding_window_sample_datapoints (validation_df df cur) <;> rfl

theorem block_step_ok_balanced (df : List Bar) (acc acc2 : Dataset × Dataset)
    (cur : Int) (h : block_step df acc cur = Except.ok acc2)
    (h1 : acc.1.X.length = acc.1.Y.length) (h2 : acc.2.X.length = acc.2.Y.length) :
    acc2.1.X.length = acc2.1.Y.length ∧ acc2.2.X.length = acc2.2.Y.length := by
  rw [block_step_eq] at h
  cases hT : sliding_window_sample_datapoints (training_df df cur) with
  | emptyList => simp only [hT] at h; exact absurd h (by simp)
  | toDataset dT =>
    cases hV : sliding_window_sample_datapoints (validation_df df cur) with
    | emptyList => simp only [hT, hV] at h; exact absurd h (by simp)
    | toDataset dV =>
      simp only [hT, hV, Except.ok.injEq] at h
      have hdT : dT.X.length = dT.Y.length := by
        rw [sampler_toDataset_inv _ _ hT]; exact sliding_loop_balanced _
      have hdV : dV.X.length = dV.Y.length := by
        rw [sampler_toDataset_inv _ _ hV]; exact sliding_loop_balanced _
      subst h
      constructor <;> simp [Dataset.add_X, Dataset.add_Y, h1, h2, hdT, hdV]

theorem split_loop_ok_balanced (df : List Bar) (end_date : Int)
    (acc : Dataset × Dataset) (cur : Int) (t v : Dataset)
    (h : split_loop df end_date acc cur = Except.ok (t, v))
    (h1 : acc.1.X.length = acc.1.Y.length) (h2 : acc.2.X.length = acc.2.Y.length) :
    t.X.length = t.Y.length ∧ v.X.length = v.Y.length := by
  rw [split_loop] at h
  split at h
  · rename_i hcond
    cases hb : block_step df acc cur with
    | error e => rw [hb] at h; exact absurd h (by simp)
    | ok acc2 =>
      rw [hb] at h
      have hbal := block_step_ok_balanced df acc acc2 cur hb h1 h2
      exact split_loop_ok_balanced df end_date acc2
        (cur + timedelta_days SPLIT_PER_DAY) t v h hbal.1 hbal.2
  · injection h with h
    subst h
    exact ⟨h1, h2⟩
termination_by (end_date - cur).toNat
decreasing_by
  simp only [timedelta_days, SPLIT_PER_DAY] at *
  omega

/-- C9: the `len(X) == len(Y)` invariant holds for `empty_dataset`, is
preserved by `Dataset.__add__`, holds for every `Dataset` the sampler returns
and for both Datasets of every non-raising run of `split_train_validation`;
the empty `Dataset` is a value of the type (`N = 0` on both sides). -/
theorem dataset_balanced_invariant :
    (empty_dataset.X.length = 0 ∧ empty_dataset.Y.length = 0) ∧
    (∀ A B : Dataset, A.X.length = A.Y.length → B.X.length = B.Y.length →
      (A + B).X.length = (A + B).Y.length) ∧
    (∀ df d, sliding_window_sample_datapoints df = SampleResult.toDataset d →
      d.X.length = d.Y.length) ∧
    (∀ df t v, split_train_validation df = Except.ok (t, v) →
      t.X.length = t.Y.length ∧ v.X.length = v.Y.length) := by
  refine ⟨⟨rfl, rfl⟩, ?_, ?_, ?_⟩
  · intro A B hA hB
    simp [Dataset.add_X, Dataset.add_Y, hA, hB]
  · intro df d h
    rw [sampler_toDataset_inv df d h]
    exact sliding_loop_balanced df
  · intro df t v h
    cases df with
    | nil =>
      unfold split_train_validation at h
      injection h with h
      obtain ⟨rfl, rfl⟩ : t = empty_dataset ∧ v = empty_dataset := by
        constructor <;> [exact (congrArg Prod.fst h).symm; exact (congrArg Prod.snd h).symm]
      exact ⟨rfl, rfl⟩
    | cons b rest =>
      unfold split_train_validation at h
      exact split_loop_ok_balanced _ _ _ _ t v h rfl rfl

/-! ### C3: block slice membership -/

/-- C3: for a block with start cursor `current_date`, the training slice holds
exactly the bars with `OpenTime >= cursor` and `CloseTime < cursor + 20 days`,
the validation slice exactly those with `OpenTime >= cursor + 20 days` and
`CloseTime < cursor + 23 days`, and a bar whose `CloseTime` equals the
training/validation seam exactly is excluded from training. -/
theorem block_slice_membership (df : List Bar) (current_date : Int) (b : Bar) :
    (b ∈ training_df df current_date ↔
      b ∈ df ∧ current_date ≤ b.OpenTime ∧
        b.CloseTime < current_date + timedelta_days TRAINING_DAY) ∧
    (b ∈ validation_df df current_date ↔
      b ∈ df ∧ current_date + timedelta_days TRAINING_DAY ≤ b.OpenTime ∧
        b.CloseTime < current_date + timedelta_days SPLIT_PER_DAY) ∧
    (b.CloseTime = current_date + timedelta_days TRAINING_DAY →
      b ∉ training_df df current_date) := by
  refine ⟨?_, ?_, ?_⟩
  · simp [training_df, in_training_block, List.mem_filter, and_assoc]
  · simp [validation_df, in_validation_block, List.mem_filter, and_assoc]
  · intro hseam hmem
    simp [training_df, in_training_block, List.mem_filter] at hmem
    omega

/-! ### C8: a span shorter than one block yields two empty Datasets -/

/-- C8: on a bar sequence that is empty or whose total span
`max CloseTime - min OpenTime` is shorter than `SPLIT_PER_DAY` days, the walk
performs no iteration and returns two empty Datasets, not an error. -/
theorem short_span_returns_empty (df : List Bar)
    (h : df = [] ∨ max_close_time df < min_open_time df + timedelta_days SPLIT_PER_DAY) :
    split_train_validation df = Except.ok (empty_dataset, empty_dataset) := by
  cases df with
  | nil => rfl
  | cons b rest =>
    rcases h with h | h
    · exact absurd h (by simp)
    · unfold split_train_validation
      rw [split_loop, if_neg (by omega)]

/-! ### Synthetic gap-free 15-minute bars for concrete runs -/

/-- Bar number `i` of a gap-free synthetic 15-minute sequence: it opens `i`
intervals after the epoch and closes exactly where bar `i + 1` opens. -/
def mkBar (i : Nat) : Bar :=
  ⟨(i : Int) * 900000, ((i : Int) + 1) * 900000, 0, 0, 0, 0⟩

/-- The first `n` bars of the synthetic sequence. -/
def synthetic_bars (n : Nat) : List Bar := (List.range n).map mkBar

theorem synthetic_bars_length (n : Nat) : (synthetic_bars n).length = n := by
  simp [synthetic_bars]

/-- C2 evaluation: on a 191-bar input (and on the empty input) the guard path
of `sliding_window_sample_datapoints` returns the plain Python list `[]`
(`SampleResult.emptyList`), not an empty `Dataset`. -/
theorem sampler_short_input_plain_list :
    sliding_window_sample_datapoints (synthetic_bars 191) = SampleResult.emptyList ∧
    sliding_window_sample_datapoints [] = SampleResult.emptyList := by
  constructor
  · rw [sliding_window_sample_datapoints,
      if_pos (by simp only [synthetic_bars_length]; decide)]
  · rfl

/-! ### C4: the walk's block schedule -/

/-- Successive values of `current_date` at the top of the `while` body: the
block start cursors the walk processes, in order. -/
def cursor_list (current_date end_date : Int) : List Int :=
  if current_date + timedelta_days SPLIT_PER_DAY ≤ end_date then
    current_date :: cursor_list (current_date + timedelta_days SPLIT_PER_DAY) end_date
  else []
termination_by (end_date - current_date).toNat
decreasing_by
  simp only [timedelta_days, SPLIT_PER_DAY] at *
  omega

/-- The `while` loop is the monadic fold of the loop body over its block start
cursors. -/
theorem split_loop_eq_foldlM (df : List Bar) (end_date : Int)
    (acc : Dataset × Dataset) (cur : Int) :
    split_loop df end_date acc cur
      = (cursor_list cur end_date).foldlM (block_step df) acc := by
  rw [split_loop, cursor_list]
  split
  · rw [List.foldlM_cons]
    cases hb : block_step df acc cur with
    | error e => rfl
    | ok acc2 =>
      show split_loop df end_date acc2 (cur + timedelta_days SPLIT_PER_DAY)
        = (cursor_list (cur + timedelta_days SPLIT_PER_DAY) end_date).foldlM (block_step df) acc2
      exact split_loop_eq_foldlM df end_date acc2 (cur + timedelta_days SPLIT_PER_DAY)
  · rfl
termination_by (end_date - cur).toNat
decreasing_by
  simp only [timedelta_days, SPLIT_PER_DAY] at *
  omega

theorem timedelta_days_SPLIT : timedelta_days SPLIT_PER_DAY = 1987200000 := by
  norm_num [timedelta_days, SPLIT_PER_DAY]

theorem timedelta_days_SPLIT_toNat : (timedelta_days SPLIT_PER_DAY).toNat = 1987200000 := rfl

/-- The cursors form the arithmetic progression `cur, cur + 23 days, …` with
one entry per whole block that fits before `end_date`. -/
theorem cursor_list_eq (cur end_date : Int) :
    cursor_list cur end_date
      = (List.range ((end_date - cur).toNat / (timedelta_days SPLIT_PER_DAY).toNat)).map
          (fun (i : Nat) => cur + (i : Int) * timedelta_days SPLIT_PER_DAY) := by
  rw [cursor_list]
  split
  · rename_i hcond
    rw [cursor_list_eq (cur + timedelta_days SPLIT_PER_DAY) end_date]
    rw [timedelta_days_SPLIT_toNat, timedelta_days_SPLIT] at *
    have hk : (end_date - cur).toNat / (1987200000 : Nat)
        = (end_date - (cur + 1987200000)).toNat / (1987200000 : Nat) + 1 := by
      omega
    rw [hk, List.range_succ_eq_map, List.map_cons, List.map_map]
    refine congrArg₂ _ (by push_cast; ring) (List.map_congr_left ?_)
    intro i _
    simp only [Function.comp_apply]
    push_cast
    ring
  · rename_i hcond
    have h0 : (end_date - cur).toNat / (timedelta_days SPLIT_PER_DAY).toNat = 0 := by
      rw [timedelta_days_SPLIT_toNat]
      rw [timedelta_days_SPLIT] at hcond
      omega
    simp [h0]
termination_by (end_date - cur).toNat
decreasing_by
  simp only [timedelta_days, SPLIT_PER_DAY] at *
  omega

/-- Every processed cursor starts a whole block that ends on or before the
maximum close time. -/
theorem cursor_list_mem_le (cur e c : Int) (hc : c ∈ cursor_list cur e) :
    c + timedelta_days SPLIT_PER_DAY ≤ e := by
  rw [cursor_list] at hc
  split at hc
  · rename_i hcond
    rcases List.mem_cons.mp hc with rfl | hc
    · exact hcond
    · exact cursor_list_mem_le _ _ _ hc
  · simp at hc
termination_by (e - cur).toNat
decreasing_by
  simp only [timedelta_days, SPLIT_PER_DAY] at *
  omega

/-- C4: on a nonempty bar sequence the walk starts at the minimum `OpenTime`,
processes exactly one block start cursor per whole `SPLIT_PER_DAY`-day block
that fits before the maximum `CloseTime` — the cursors form the adjacent,
non-overlapping progression `start, start + 23 days, start + 2·23 days, …` —
folds the loop body over those cursors in order, every processed block lies
entirely inside the time span, and the trailing remainder of the span is
shorter than one block and is never processed. -/
theorem walk_block_schedule (b : Bar) (rest : List Bar) :
    split_train_validation (b :: rest)
      = ((List.range
            ((max_close_time (b :: rest) - min_open_time (b :: rest)).toNat
              / (timedelta_days SPLIT_PER_DAY).toNat)).map
          (fun (i : Nat) =>
            min_open_time (b :: rest) + (i : Int) * timedelta_days SPLIT_PER_DAY)).foldlM
          (block_step (b :: rest)) (empty_dataset, empty_dataset) ∧
    (∀ c ∈ cursor_list (min_open_time (b :: rest)) (max_close_time (b :: rest)),
      c + timedelta_days SPLIT_PER_DAY ≤ max_close_time (b :: rest)) ∧
    max_close_time (b :: rest)
      < min_open_time (b :: rest)
        + (((max_close_time (b :: rest) - min_open_time (b :: rest)).toNat
              / (timedelta_days SPLIT_PER_DAY).toNat : Nat) + 1 : Int)
          * timedelta_days SPLIT_PER_DAY := by
  refine ⟨?_, fun c hc => cursor_list_mem_le _ _ c hc, ?_⟩
  · rw [show split_train_validation (b :: rest)
        = split_loop (b :: rest) (max_close_time (b :: rest)) (empty_dataset, empty_dataset)
            (min_open_time (b :: rest)) from rfl,
      split_loop_eq_foldlM, cursor_list_eq]
  · rw [timedelta_days_SPLIT_toNat, timedelta_days_SPLIT]
    push_cast
    omega

/-! ### C10: a processed block with a short slice raises `TypeError` -/

theorem sampler_emptyList_of_short (df : List Bar) (h : df.length < BAR_PER_DATAPOINT) :
    sliding_window_sample_datapoints df = SampleResult.emptyList := by
  rw [sliding_window_sample_datapoints, if_pos h]

theorem sampler_toDataset_of_long (df : List Bar) (h : BAR_PER_DATAPOINT ≤ df.length) :
    sliding_window_sample_datapoints df = SampleResult.toDataset (sliding_loop df) := by
  rw [sliding_window_sample_datapoints, if_neg (by omega)]

theorem split_loop_error_of_short (df : List Bar) (e : Int) (acc : Dataset × Dataset)
    (cur c : Int) (hc : c ∈ cursor_list cur e)
    (hshort : (training_df df c).length < BAR_PER_DATAPOINT ∨
      (validation_df df c).length < BAR_PER_DATAPOINT) :
    split_loop df e acc cur = Except.error "TypeError" := by
  by_cases hcond : cur + timedelta_days SPLIT_PER_DAY ≤ e
  · rw [split_loop, if_pos hcond, block_step_eq]
    by_cases hT : (training_df df cur).length < BAR_PER_DATAPOINT
    · rw [sampler_emptyList_of_short _ hT]
      cases sliding_window_sample_datapoints (validation_df df cur) <;> rfl
    · by_cases hV : (validation_df df cur).length < BAR_PER_DATAPOINT
      · rw [sampler_emptyList_of_short _ hV, sampler_toDataset_of_long _ (by omega)]
      · rw [sampler_toDataset_of_long _ (by omega), sampler_toDataset_of_long
          (validation_df df cur) (by omega)]
        rw [cursor_list, if_pos hcond] at hc
        rcases List.mem_cons.mp hc with rfl | hc
        · rcases hshort with h | h <;> omega
        · exact split_loop_error_of_short df e _
            (cur + timedelta_days SPLIT_PER_DAY) c hc hshort
  · rw [cursor_list, if_neg hcond] at hc
    simp at hc
termination_by (e - cur).toNat
decreasing_by
  simp only [timedelta_days, SPLIT_PER_DAY] at *
  omega

/-- C10: when the walk spans at least one whole block but the block of some
processed cursor has a training or validation slice with fewer than
`BAR_PER_DATAPOINT` bars, `split_train_validation` raises `TypeError` instead
of returning: `sliding_window_sample_datapoints` returns the plain list `[]`
for that slice, `Dataset.__add__` answers `NotImplemented` for the non-`Dataset`
operand, and the interpreter turns that into a `TypeError`. -/
theorem short_slice_raises_type_error (b : Bar) (rest : List Bar) (c : Int)
    (hc : c ∈ cursor_list (min_open_time (b :: rest)) (max_close_time (b :: rest)))
    (hshort : (training_df (b :: rest) c).length < BAR_PER_DATAPOINT ∨
      (validation_df (b :: rest) c).length < BAR_PER_DATAPOINT) :
    split_train_validation (b :: rest) = Except.error "TypeError" :=
  split_loop_error_of_short (b :: rest) (max_close_time (b :: rest))
    (empty_dataset, empty_dataset) (min_open_time (b :: rest)) c hc hshort

/-- C10 witness: two bars whose span is exactly one block but whose training
slice holds a single bar make the walk raise `TypeError`. -/
theorem short_slice_raises_type_error_witness :
    split_train_validation
        [⟨0, 900000, 0, 0, 0, 0⟩, ⟨1986300000, 1987200000, 0, 0, 0, 0⟩]
      = Except.error "TypeError" :=
  short_slice_raises_type_error ⟨0, 900000, 0, 0, 0, 0⟩
    [⟨1986300000, 1987200000, 0, 0, 0, 0⟩] 0
    (by
      show (0 : Int) ∈ cursor_list 0 1987200000
      rw [cursor_list, if_pos (by decide)]
      exact List.mem_cons_self _ _)
    (Or.inl (by decide))

/-! ### C6: shape and alignment of each produced sample -/

theorem pyRange_three_getElem (s stop k : Nat) (h : k < (pyRange s stop 3).length) :
    (pyRange s stop 3)[k] = s + 3 * k := by
  simp only [pyRange_three_eq, List.getElem_map, List.getElem_range]

theorem sliding_loop_getElem_X (df : List Bar) (k : Nat)
    (hx : k < (sliding_loop df).X.length) :
    (sliding_loop df).X[k]
      = extract_open_close_high_low
          (((df.drop (3 * k)).take BAR_PER_DATAPOINT).take INPUT_BAR_PER_DATAPOINT) := by
  simp only [sliding_loop_X, List.getElem_map, pyRange_three_getElem, Nat.zero_add]

theorem sliding_loop_getElem_Y (df : List Bar) (k : Nat)
    (hy : k < (sliding_loop df).Y.length) :
    (sliding_loop df).Y[k]
      = extract_open_close_high_low
          (((df.drop (3 * k)).take BAR_PER_DATAPOINT).drop INPUT_BAR_PER_DATAPOINT) := by
  simp only [sliding_loop_Y, List.getElem_map, pyRange_three_getElem, Nat.zero_add]

/-- C6: every sample `k` comes from the window starting at bar `3k`: `X[k]` is
the four price fields of bars `3k … 3k+175` (shape `[176 x 4]`), `Y[k]` the four
price fields of bars `3k+176 … 3k+191` (shape `[16 x 4]`), and the two bar
ranges are adjacent and disjoint — together they are exactly the window of
`BAR_PER_DATAPOINT` bars, with no gap and no overlap. -/
theorem sample_window_alignment (df : List Bar) (h : BAR_PER_DATAPOINT ≤ df.length) :
    sliding_window_sample_datapoints df = SampleResult.toDataset (sliding_loop df) ∧
    ∀ k (hx : k < (sliding_loop df).X.length) (hy : k < (sliding_loop df).Y.length),
      (sliding_loop df).X.get ⟨k, hx⟩
          = extract_open_close_high_low ((df.drop (3 * k)).take INPUT_BAR_PER_DATAPOINT) ∧
      (sliding_loop df).Y.get ⟨k, hy⟩
          = extract_open_close_high_low
              (((df.drop (3 * k)).drop INPUT_BAR_PER_DATAPOINT).take OUTPUT_BAR_PER_DATAPOINT) ∧
      ((sliding_loop df).X.get ⟨k, hx⟩).length = INPUT_BAR_PER_DATAPOINT ∧
      (∀ row ∈ (sliding_loop df).X.get ⟨k, hx⟩, row.length = DIMENSION_PER_BAR) ∧
      ((sliding_loop df).Y.get ⟨k, hy⟩).length = OUTPUT_BAR_PER_DATAPOINT ∧
      (∀ row ∈ (sliding_loop df).Y.get ⟨k, hy⟩, row.length = DIMENSION_PER_BAR) ∧
      (df.drop (3 * k)).take INPUT_BAR_PER_DATAPOINT
          ++ ((df.drop (3 * k)).drop INPUT_BAR_PER_DATAPOINT).take OUTPUT_BAR_PER_DATAPOINT
        = (df.drop (3 * k)).take BAR_PER_DATAPOINT := by
  refine ⟨sampler_toDataset_of_long df h, ?_⟩
  intro k hx hy
  have hkb : 3 * k + BAR_PER_DATAPOINT ≤ df.length := by
    have hlen := sliding_loop_length_X df
    rw [hlen] at hx
    have hB : BAR_PER_DATAPOINT = 192 := rfl
    omega
  have e1 : (sliding_loop df).X.get ⟨k, hx⟩
      = extract_open_close_high_low ((df.drop (3 * k)).take INPUT_BAR_PER_DATAPOINT) := by
    rw [List.get_eq_getElem, sliding_loop_getElem_X df k hx, List.take_take,
      show min INPUT_BAR_PER_DATAPOINT BAR_PER_DATAPOINT = INPUT_BAR_PER_DATAPOINT by decide]
  have e2 : (sliding_loop df).Y.get ⟨k, hy⟩
      = extract_open_close_high_low
          (((df.drop (3 * k)).drop INPUT_BAR_PER_DATAPOINT).take OUTPUT_BAR_PER_DATAPOINT) := by
    rw [List.get_eq_getElem, sliding_loop_getElem_Y df k hy, List.drop_take,
      show BAR_PER_DATAPOINT - INPUT_BAR_PER_DATAPOINT = OUTPUT_BAR_PER_DATAPOINT from rfl]
  refine ⟨e1, e2, ?_, ?_, ?_, ?_, ?_⟩
  · rw [e1]
    simp only [extract_open_close_high_low, List.length_map, List.length_take,
      List.length_drop]
    have hB : BAR_PER_DATAPOINT = 192 := rfl
    have hI : INPUT_BAR_PER_DATAPOINT = 176 := rfl
    omega
  · intro row hrow
    rw [e1] at hrow
    simp only [extract_open_close_high_low, List.mem_map] at hrow
    obtain ⟨b', _, rfl⟩ := hrow
    rfl
  · rw [e2]
    simp only [extract_open_close_high_low, List.length_map, List.length_take,
      List.length_drop]
    have hB : BAR_PER_DATAPOINT = 192 := rfl
    have hI : INPUT_BAR_PER_DATAPOINT = 176 := rfl
    have hO : OUTPUT_BAR_PER_DATAPOINT = 16 := rfl
    omega
  · intro row hrow
    rw [e2] at hrow
    simp only [extract_open_close_high_low, List.mem_map] at hrow
    obtain ⟨b', _, rfl⟩ := hrow
    rfl
  · rw [show BAR_PER_DATAPOINT = INPUT_BAR_PER_DATAPOINT + OUTPUT_BAR_PER_DATAPOINT from rfl,
      List.take_add]

/-- C6 witness: the theorem instantiated at a concrete 192-bar sequence. -/
theorem sample_window_alignment_witness :
    BAR_PER_DATAPOINT ≤ (synthetic_bars 192).length ∧
    sliding_window_sample_datapoints (synthetic_bars 192)
      = SampleResult.toDataset (sliding_loop (synthetic_bars 192)) :=
  ⟨by rw [synthetic_bars_length]; decide,
   (sample_window_alignment (synthetic_bars 192) (by rw [synthetic_bars_length]; decide)).1⟩

/-! ### C5: the one-block synthetic run -/

theorem timedelta_days_TRAINING : timedelta_days TRAINING_DAY = 1728000000 := by
  norm_num [timedelta_days, TRAINING_DAY]

theorem filter_lt_range (b m : Nat) (h : b ≤ m) :
    (List.range m).filter (fun i => decide (i < b)) = List.range b := by
  induction m with
  | zero =>
    have hb : b = 0 := by omega
    subst hb
    rfl
  | succ m ih =>
    rcases Nat.lt_or_ge m b with hm | hm
    · have hb : b = m + 1 := by omega
      subst hb
      apply List.filter_eq_self.mpr
      intro a ha
      simp only [decide_eq_true_eq]
      exact List.mem_range.mp ha
    · rw [List.range_succ, List.filter_append, ih (by omega)]
      have hsing : List.filter (fun i => decide (i < b)) [m] = [] := by
        simp [Nat.not_lt.mpr hm]
      rw [hsing, List.append_nil]

theorem filter_le_range (a b : Nat) :
    (List.range b).filter (fun i => decide (a ≤ i)) = List.range' a (b - a) := by
  induction b with
  | zero => simp
  | succ b ih =>
    rw [List.range_succ, List.filter_append, ih]
    rcases Nat.lt_or_ge b a with hb | hb
    · have hsing : List.filter (fun i => decide (a ≤ i)) [b] = [] := by
        simp [Nat.not_le.mpr hb]
      rw [hsing, List.append_nil,
        show b - a = 0 by omega, show b + 1 - a = 0 by omega]
    · have hsing : List.filter (fun i => decide (a ≤ i)) [b] = [b] := by
        simp [hb]
      rw [hsing, show b + 1 - a = (b - a) + 1 by omega, List.range'_concat,
        show a + 1 * (b - a) = b by omega]

theorem in_training_block_mkBar (i : Nat) :
    in_training_block 0 (mkBar i) = decide (i < 1919) := by
  simp only [in_training_block, mkBar, timedelta_days_TRAINING]
  rw [← Bool.decide_and, decide_eq_decide]
  omega

theorem in_validation_block_mkBar (i : Nat) :
    in_validation_block 0 (mkBar i) = (decide (1920 ≤ i) && decide (i < 2207)) := by
  simp only [in_validation_block, mkBar, timedelta_days_TRAINING, timedelta_days_SPLIT]
  rw [← Bool.decide_and, ← Bool.decide_and, decide_eq_decide]
  omega

/-- The single block's training slice: bars `0 … 1918`; the bar closing exactly
on the 20-day seam (bar `1919`) is excluded by the strict `CloseTime` bound. -/
theorem training_slice_2208 :
    training_df (synthetic_bars 2208) 0 = synthetic_bars 1919 := by
  rw [training_df, synthetic_bars, List.filter_map, Function.comp_def]
  have hcong : (List.range 2208).filter (fun i => in_training_block 0 (mkBar i))
      = (List.range 2208).filter (fun i => decide (i < 1919)) := by
    apply List.filter_congr
    intro i hi
    exact in_training_block_mkBar i
  rw [hcong, filter_lt_range 1919 2208 (by omega)]
  rfl

/-- The single block's validation slice: bars `1920 … 2206`; the bar closing
exactly on the block end (bar `2207`) is excluded by the strict bound. -/
theorem validation_slice_2208 :
    validation_df (synthetic_bars 2208) 0 = (List.range' 1920 287).map mkBar := by
  rw [validation_df, synthetic_bars, List.filter_map, Function.comp_def]
  have hcong : (List.range 2208).filter (fun i => in_validation_block 0 (mkBar i))
      = (List.range 2208).filter (fun i => decide (1920 ≤ i) && decide (i < 2207)) := by
    apply List.filter_congr
    intro i hi
    exact in_validation_block_mkBar i
  rw [hcong, ← List.filter_filter, filter_lt_range 2207 2208 (by omega),
    filter_le_range 1920 2207]

theorem training_slice_2208_length : (training_df (synthetic_bars 2208) 0).length = 1919 := by
  rw [training_slice_2208, synthetic_bars_length]

theorem validation_slice_2208_length :
    (validation_df (synthetic_bars 2208) 0).length = 287 := by
  rw [validation_slice_2208, List.length_map, List.length_range']

theorem synthetic_bars_succ (n : Nat) :
    synthetic_bars (n + 1) = mkBar 0 :: (List.range n).map (fun i => mkBar (i + 1)) := by
  rw [synthetic_bars, List.range_succ_eq_map, List.map_cons, List.map_map]
  rfl

theorem min_open_time_cons (b : Bar) (rest : List Bar) :
    min_open_time (b :: rest) = rest.foldl (fun m x => min m x.OpenTime) b.OpenTime := rfl

theorem max_close_time_cons (b : Bar) (rest : List Bar) :
    max_close_time (b :: rest) = rest.foldl (fun m x => max m x.CloseTime) b.CloseTime := rfl

theorem foldl_min_open_const (l : List Bar) : ∀ m : Int, (∀ x ∈ l, m ≤ x.OpenTime) →
    l.foldl (fun acc x => min acc x.OpenTime) m = m := by
  induction l with
  | nil => intro m _; rfl
  | cons x t ih =>
    intro m h
    rw [List.foldl_cons, min_eq_left (h x (List.mem_cons_self x t))]
    exact ih m fun y hy => h y (List.mem_cons_of_mem x hy)

theorem foldl_max_close_eq (l : List Bar) : ∀ m C : Int, m ≤ C →
    (C = m ∨ ∃ x ∈ l, x.CloseTime = C) → (∀ x ∈ l, x.CloseTime ≤ C) →
    l.foldl (fun acc x => max acc x.CloseTime) m = C := by
  induction l with
  | nil =>
    intro m C _ hmem _
    rcases hmem with rfl | ⟨x, hx, _⟩
    · rfl
    · exact absurd hx (List.not_mem_nil x)
  | cons x t ih =>
    intro m C hm hmem hub
    rw [List.foldl_cons]
    have hub_x : x.CloseTime ≤ C := hub x (List.mem_cons_self x t)
    have hub_t : ∀ y ∈ t, y.CloseTime ≤ C := fun y hy => hub y (List.mem_cons_of_mem x hy)
    have hmax : max m x.CloseTime ≤ C := max_le hm hub_x
    rcases hmem with rfl | ⟨y, hy, hyC⟩
    · exact ih _ _ hmax (Or.inl (max_eq_left hub_x).symm) hub_t
    · rcases List.mem_cons.mp hy with rfl | hyt
      · refine ih _ _ hmax (Or.inl ?_) hub_t
        rw [hyC]
        exact (max_eq_right hm).symm
      · exact ih _ _ hmax (Or.inr ⟨y, hyt, hyC⟩) hub_t

theorem min_open_synthetic : min_open_time (synthetic_bars 2208) = 0 := by
  have hbound : ∀ x ∈ (List.range 2207).map (fun i => mkBar (i + 1)),
      (mkBar 0).OpenTime ≤ x.OpenTime := by
    intro x hx
    simp only [List.mem_map, List.mem_range] at hx
    obtain ⟨i, hi, rfl⟩ := hx
    simp only [mkBar]
    push_cast
    omega
  rw [synthetic_bars_succ 2207, min_open_time_cons, foldl_min_open_const _ _ hbound]
  norm_num [mkBar]

theorem max_close_synthetic : max_close_time (synthetic_bars 2208) = 1987200000 := by
  have hub : ∀ x ∈ (List.range 2207).map (fun i => mkBar (i + 1)),
      x.CloseTime ≤ (1987200000 : Int) := by
    intro x hx
    simp only [List.mem_map, List.mem_range] at hx
    obtain ⟨i, hi, rfl⟩ := hx
    simp only [mkBar]
    push_cast
    omega
  have hmC : (mkBar 0).CloseTime ≤ (1987200000 : Int) := by norm_num [mkBar]
  have hmem : (1987200000 : Int) = (mkBar 0).CloseTime ∨
      ∃ x ∈ (List.range 2207).map (fun i => mkBar (i + 1)), x.CloseTime = 1987200000 := by
    right
    refine ⟨mkBar 2207, List.mem_map.mpr ⟨2206, List.mem_range.mpr (by omega), rfl⟩, ?_⟩
    simp only [mkBar]
    norm_num
  rw [synthetic_bars_succ 2207, max_close_time_cons,
    foldl_max_close_eq _ _ _ hmC hmem hub]

theorem split_train_validation_cons (b : Bar) (rest : List Bar) :
    split_train_validation (b :: rest)
      = split_loop (b :: rest) (max_close_time (b :: rest)) (empty_dataset, empty_dataset)
          (min_open_time (b :: rest)) := rfl

/-- The whole run on the exact-one-block synthetic sequence: one iteration,
both slices long enough, no error. -/
theorem split_synthetic_2208 :
    split_train_validation (synthetic_bars 2208)
      = Except.ok (empty_dataset + sliding_loop (training_df (synthetic_bars 2208) 0),
                   empty_dataset + sliding_loop (validation_df (synthetic_bars 2208) 0)) := by
  obtain ⟨b0, tl, hc⟩ : ∃ b0 tl, synthetic_bars 2208 = b0 :: tl :=
    ⟨_, _, synthetic_bars_succ 2207⟩
  rw [hc, split_train_validation_cons, ← hc, min_open_synthetic, max_close_synthetic]
  rw [split_loop, if_pos (by decide), block_step_eq,
    sampler_toDataset_of_long (training_df (synthetic_bars 2208) 0)
      (by rw [training_slice_2208_length]; decide),
    sampler_toDataset_of_long (validation_df (synthetic_bars 2208) 0)
      (by rw [validation_slice_2208_length]; decide)]
  show split_loop (synthetic_bars 2208) 1987200000
      (empty_dataset + sliding_loop (training_df (synthetic_bars 2208) 0),
       empty_dataset + sliding_loop (validation_df (synthetic_bars 2208) 0))
      (0 + timedelta_days SPLIT_PER_DAY) = _
  rw [split_loop, if_neg (by decide)]

theorem splitCounts_synthetic_2208 : splitCounts (synthetic_bars 2208) = some (576, 32) := by
  rw [splitCounts, split_synthetic_2208]
  show some ((empty_dataset + sliding_loop (training_df (synthetic_bars 2208) 0)).X.length,
             (empty_dataset + sliding_loop (validation_df (synthetic_bars 2208) 0)).X.length)
      = some (576, 32)
  rw [Dataset.add_X, Dataset.add_X, empty_dataset_X, List.nil_append, List.nil_append,
    sliding_loop_length_X, sliding_loop_length_X,
    training_slice_2208_length, validation_slice_2208_length]
  decide

/-- C5 (amended): on the gap-free synthetic 15-minute sequence spanning exactly
one 23-day block (2208 bars), the single block yields exactly 576 training
samples — its training slice has 1919 bars, the bar closing exactly on the
20-day seam being excluded by the strict bound — and exactly 32 validation
samples — its validation slice has 287 bars, the bar closing exactly at the
block end being excluded. -/
theorem one_block_sample_counts :
    splitCounts (synthetic_bars 2208) = some (576, 32) ∧
    (training_df (synthetic_bars 2208) 0).length = 1919 ∧
    (validation_df (synthetic_bars 2208) 0).length = 287 :=
  ⟨splitCounts_synthetic_2208, training_slice_2208_length, validation_slice_2208_length⟩

/-- C5 counterexample: that same run does not produce the `(577, 33)` sample
counts of the spec's end-to-end example — the strict seam bounds leave 1919 and
287 bars in the two slices, not 1920 and 288. -/
theorem one_block_sample_counts_ne_spec :
    (splitCounts (synthetic_bars 2208) = some (577, 33)) = False := by
  rw [splitCounts_synthetic_2208]
  exact eq_false (by decide)

/-- C8 witness: a single bar spans less than `SPLIT_PER_DAY` days. -/
theorem short_span_returns_empty_witness :
    split_train_validation [mkBar 0] = Except.ok (empty_dataset, empty_dataset) :=
  short_span_returns_empty [mkBar 0] (Or.inr (by decide))
